import Mathlib

/-!
Shallow embedding of `pyTSEB/TSEBConfigFileInterface.py` and verification of
the specified properties of its configuration parsing and dispatch logic.

The module under study wraps Python's stdlib `ConfigParser` in a class
`MyConfigParser` scoped to a single section, extracts typed fields out of it
(`_parse_common_config`, `_parse_image_config`, `_parse_point_config`),
stores the resulting mapping on a `TSEBConfigFileInterface` object
(`get_data`) and dispatches a model run (`run`).
-/

set_option autoImplicit false

namespace TSEBConf

/-- Python runtime values as they occur in this module: strings read from the
config, ints and floats produced by coercion, lists used for the composite
fields (`calc_row`, `G_form` and the `[0, 0]` fallback), and `None`.
Python floats are modelled as exact rationals; every float literal and every
value coerced in the claims under study is an exactly-representable short
decimal, and no property here depends on IEEE rounding. -/
inductive PyVal where
  | str : String → PyVal
  | int : Int → PyVal
  | float : ℚ → PyVal
  | list : List PyVal → PyVal
  | none : PyVal

/-- Python exceptions observable in this module: `NoOptionError(option, section)`
(whose `option` attribute `get_data` reports), `NoSectionError`, the module's
own `ParserError(parameter, expected_type)`, and the builtin `ValueError`,
`AttributeError`, `TypeError` and `KeyError`. -/
inductive PyErr where
  | noOption : String → String → PyErr
  | noSection : String → PyErr
  | parserError : String → String → PyErr
  | valueError : String → PyErr
  | attributeError : String → PyErr
  | typeError : String → PyErr
  | keyError : String → PyErr
deriving DecidableEq, Repr

/-- Python `==` on the values above, including numeric cross-type equality
(`0 == 0.0` is true in Python) and elementwise list comparison. -/
def pyEq : PyVal → PyVal → Bool
  | .int i, .int j => i == j
  | .int i, .float q => (i : ℚ) == q
  | .float q, .int j => q == (j : ℚ)
  | .float q, .float r => q == r
  | .str s, .str t => s == t
  | .list xs, .list ys =>
    match xs, ys with
    | [], [] => true
    | x :: xs', y :: ys' => pyEq x y && pyEq (.list xs') (.list ys')
    | _, _ => false
  | .none, .none => true
  | _, _ => false

/-- Python `!=`. -/
def pyNe (a b : PyVal) : Bool := !(pyEq a b)

/-- Value of a list of decimal digit characters. -/
def natOfDigits (cs : List Char) : Nat :=
  cs.foldl (fun a c => 10 * a + (c.toNat - 48)) 0

/-- Reads a non-empty all-digit character list as a natural number. -/
def digitsOf (cs : List Char) : Option Nat :=
  if !cs.isEmpty && cs.all Char.isDigit then some (natOfDigits cs) else Option.none

/-- Python `int(s)` on decimal string literals: optional surrounding whitespace,
optional sign, one or more digits. Other accepted forms of `int()`
(underscores, non-decimal bases) do not occur in this development. -/
def pyParseInt (s : String) : Option Int :=
  match s.trim.data with
  | '-' :: rest => (digitsOf rest).map (fun n => -(n : Int))
  | '+' :: rest => (digitsOf rest).map (fun n => (n : Int))
  | cs => (digitsOf cs).map (fun n => (n : Int))

/-- Python `float(s)` on plain decimal notation: optional surrounding
whitespace, optional sign, digits with an optional fractional part. Exponent
notation and `inf`/`nan` do not occur in this development. -/
def pyParseFloat (s : String) : Option ℚ :=
  let body := s.trim.data
  let signAndRest : ℚ × List Char :=
    match body with
    | '-' :: r => (-1, r)
    | '+' :: r => (1, r)
    | r => (1, r)
  let sign := signAndRest.1
  let ipart := signAndRest.2.takeWhile Char.isDigit
  let rest := signAndRest.2.dropWhile Char.isDigit
  match rest with
  | [] =>
    if ipart.isEmpty then Option.none
    else some (sign * (natOfDigits ipart : ℚ))
  | '.' :: fpart =>
    if fpart.all Char.isDigit && !(ipart.isEmpty && fpart.isEmpty) then
      some (sign * ((natOfDigits ipart : ℚ) +
        (natOfDigits fpart : ℚ) / (10 : ℚ) ^ fpart.length))
    else Option.none
  | _ => Option.none

/-- A Python dict with string keys, modelled as an insertion-ordered
association list (as Python dicts are). -/
abbrev Conf := List (String × PyVal)

/-- Python `d[k] = v`: overwrite in place if the key exists, else append. -/
def dictSet (d : Conf) (k : String) (v : PyVal) : Conf :=
  if d.any (fun kv => kv.1 == k) then
    d.map (fun kv => if kv.1 == k then (k, v) else kv)
  else d ++ [(k, v)]

/-- Python `d[k]` lookup, `none` when the key is absent. -/
def dictGet (d : Conf) (k : String) : Option PyVal :=
  (d.find? (fun kv => kv.1 == k)).map (fun kv => kv.2)

/-- Python `d.update(items)` over an ordered list of key/value pairs. -/
def dictUpdate (d : Conf) (items : Conf) : Conf :=
  items.foldl (fun acc kv => dictSet acc kv.1 kv.2) d

/-- The option/value pairs of one section of the stdlib `ConfigParser`.
Option names are stored lowercased, as the default `optionxform` does. -/
abbrev SectionData := List (String × String)

/-- State of the stdlib `ConfigParser`: the named sections, each an ordered
option/value list. Value interpolation is not modelled; no value considered
in this development contains a `%` escape. -/
structure ConfigParserState where
  sections : List (String × SectionData)

/-- Looks up an option/value list by key. -/
def assocFind (l : List (String × SectionData)) (k : String) : Option SectionData :=
  (l.find? (fun kv => kv.1 == k)).map (fun kv => kv.2)

/-- Stdlib `ConfigParser.get(section, option)` without fallback: raises
`NoSectionError` for an unknown section, `NoOptionError` for an unknown
option, otherwise returns the stored string. Option lookup lowercases the
requested name, as the default `optionxform` does. -/
def cpGet (st : ConfigParserState) (sec option : String) : Except PyErr String :=
  match assocFind st.sections sec with
  | Option.none => .error (.noSection sec)
  | some kvs =>
    match kvs.lookup option.toLower with
    | Option.none => .error (.noOption option sec)
    | some v => .ok v

/-- Stdlib `ConfigParser` typed getters, generic in the conversion: when the
section or option is missing, the fallback is returned as-is when one was
passed, else the missing-option/section error is raised; when the option is
present, its string is converted, a failed conversion raising `ValueError`.
The fallback is returned unconverted, exactly as the stdlib does. -/
def cpGetConv (conv : String → Option PyVal) (st : ConfigParserState)
    (sec option : String) (fallback : Option PyVal) : Except PyErr PyVal :=
  match assocFind st.sections sec with
  | Option.none =>
    match fallback with
    | some fb => .ok fb
    | Option.none => .error (.noSection sec)
  | some kvs =>
    match kvs.lookup option.toLower with
    | Option.none =>
      match fallback with
      | some fb => .ok fb
      | Option.none => .error (.noOption option sec)
    | some v =>
      match conv v with
      | some x => .ok x
      | Option.none => .error (.valueError v)

/-- Stdlib `ConfigParser.getint(section, option, fallback)`. -/
def cpGetint (st : ConfigParserState) (sec option : String)
    (fallback : Option PyVal) : Except PyErr PyVal :=
  cpGetConv (fun v => (pyParseInt v).map PyVal.int) st sec option fallback

/-- Stdlib `ConfigParser.getfloat(section, option, fallback)`. -/
def cpGetfloat (st : ConfigParserState) (sec option : String)
    (fallback : Option PyVal) : Except PyErr PyVal :=
  cpGetConv (fun v => (pyParseFloat v).map PyVal.float) st sec option fallback

/-- Stdlib `ConfigParser.has_option(section, option)`: raises
`NoSectionError` for an unknown section, else reports option membership. -/
def cpHasOption (st : ConfigParserState) (sec option : String) :
    Except PyErr Bool :=
  match assocFind st.sections sec with
  | Option.none => .error (.noSection sec)
  | some kvs => .ok (kvs.lookup option.toLower).isSome

/-- A `MyConfigParser` instance. `__init__(self, top_section, *args, **kwargs)`
assigns its argument to the attribute named `section` (field `sect` here);
no attribute named `top_section` is ever assigned, on this class or on the
stdlib base class. `state` is the inherited `ConfigParser` section data. -/
structure MyConfigParser where
  sect : String
  state : ConfigParserState

/-- Python attribute lookup `self.<name>` on a `MyConfigParser` instance:
only the attribute `section` exists (methods aside); any other name raises
`AttributeError`. -/
def MyConfigParser.attr (p : MyConfigParser) (name : String) :
    Except PyErr String :=
  if name == "section" then .ok p.sect else .error (.attributeError name)

/-- Calling the class: `MyConfigParser(*args)` runs
`__init__(self, top_section, *args)`, which requires one positional argument;
with an empty argument list the call raises `TypeError` before any further
work. The instance starts with the empty inherited parser state. -/
def MyConfigParser.call (args : List String) : Except PyErr MyConfigParser :=
  match args with
  | [] => .error (.typeError
      "__init__ missing 1 required positional argument: top_section")
  | a :: _ => .ok { sect := a, state := ⟨[]⟩ }

/-- `MyConfigParser.get(option)`: `super().get(self.section, option)`. -/
def MyConfigParser.get (p : MyConfigParser) (option : String) :
    Except PyErr String :=
  cpGet p.state p.sect option

/-- `MyConfigParser.getint(option, ...)`: evaluates `self.top_section` (an
attribute that does not exist) as the section argument of the base getter
inside a `try` that converts `ValueError` to `ParserError(option, 'int')`;
the `AttributeError` from the attribute lookup is not a `ValueError` and is
not caught. -/
def MyConfigParser.getint (p : MyConfigParser) (option : String)
    (fallback : Option PyVal) : Except PyErr PyVal :=
  match p.attr "top_section" with
  | .error e => .error e
  | .ok sec =>
    match cpGetint p.state sec option fallback with
    | .error (.valueError _) => .error (.parserError option "int")
    | r => r

/-- `MyConfigParser.getfloat(option, ...)`: same shape as `getint`, with
`ValueError` converted to `ParserError(option, 'float')`. -/
def MyConfigParser.getfloat (p : MyConfigParser) (option : String)
    (fallback : Option PyVal) : Except PyErr PyVal :=
  match p.attr "top_section" with
  | .error e => .error e
  | .ok sec =>
    match cpGetfloat p.state sec option fallback with
    | .error (.valueError _) => .error (.parserError option "float")
    | r => r

/-- `MyConfigParser.has_option(option)`:
`super().has_option(self.section, option)`. -/
def MyConfigParser.has_option (p : MyConfigParser) (option : String) :
    Except PyErr Bool :=
  cpHasOption p.state p.sect option

/-- Replaces or appends an option/value pair in one section's data. -/
def sdSet (kvs : SectionData) (k v : String) : SectionData :=
  if kvs.any (fun kv => kv.1 == k) then
    kvs.map (fun kv => if kv.1 == k then (k, v) else kv)
  else kvs ++ [(k, v)]

/-- Registers a section name if it is not present yet. -/
def cpAddSection (st : ConfigParserState) (sec : String) : ConfigParserState :=
  if (assocFind st.sections sec).isSome then st
  else ⟨st.sections ++ [(sec, [])]⟩

/-- Stores an option/value pair in the named (existing) section. -/
def cpSetOption (st : ConfigParserState) (sec k v : String) :
    ConfigParserState :=
  ⟨st.sections.map (fun s => if s.1 == sec then (s.1, sdSet s.2 k v) else s)⟩

/-- One step of `ConfigParser.read_file` on a well-formed line: a `[name]`
line opens (and registers) that section; a `key = value` line adds the
lowercased, stripped key with the stripped value to the current section;
blank lines are skipped. Continuation lines, comment handling and the
`key: value` delimiter are not modelled; no input considered here uses
them. -/
def readLine (acc : ConfigParserState × Option String) (line : String) :
    ConfigParserState × Option String :=
  let l := line.trim
  if l.isEmpty then acc
  else if l.startsWith "[" && l.endsWith "]" then
    let sec := (l.drop 1).dropRight 1
    (cpAddSection acc.1 sec, some sec)
  else
    match acc.2, l.splitOn "=" with
    | some sec, k :: v :: vs =>
      (cpSetOption acc.1 sec k.trim.toLower
        (String.intercalate "=" (v :: vs)).trim, acc.2)
    | _, _ => acc

/-- `ConfigParser.read_file(lines)` over the lines of a stream. -/
def MyConfigParser.read_file (p : MyConfigParser) (lines : List String) :
    MyConfigParser :=
  { p with state := (lines.foldl readLine (p.state, Option.none)).1 }

/-- `TSEBConfigFileInterface.parse_input_config(input_file)`: evaluates
`MyConfigParser()` with no arguments — which raises `TypeError`, see
`MyConfigParser.call` — and only then would open the file and feed it to
`read_file` behind an injected `'[top]'` dummy section line. `fileLines`
stands for the lines of a file that can be opened. -/
def parse_input_config (fileLines : List String) : Except PyErr MyConfigParser :=
  match MyConfigParser.call [] with
  | .error e => .error e
  | .ok parser => .ok (parser.read_file ("[top]" :: fileLines))

/-- `TSEBConfigFileInterface.SITE_DESCRIPTION`. -/
def SITE_DESCRIPTION : List String :=
  ["landcover", "lat", "lon", "alt", "stdlon", "z_T", "z_u", "z0_soil"]

/-- `TSEBConfigFileInterface.VEGETATION_PROPERTIES`. -/
def VEGETATION_PROPERTIES : List String :=
  ["leaf_width", "alpha_PT", "x_LAD"]

/-- `TSEBConfigFileInterface.SPECTRAL_PROPERTIES`. -/
def SPECTRAL_PROPERTIES : List String :=
  ["emis_C", "emis_S", "rho_vis_C", "tau_vis_C", "rho_nir_C", "tau_nir_C",
   "rho_vis_S", "rho_nir_S"]

/-- `TSEBConfigFileInterface.IMAGE_VARS`. -/
def IMAGE_VARS : List String :=
  ["T_R1", "T_R0", "VZA", "LAI", "f_c", "f_g", "h_C", "w_C", "input_mask",
   "subset", "time", "DOY", "T_A1", "T_A0", "u", "ea", "S_dn", "L_dn", "p",
   "flux_LR", "flux_LR_ancillary"]

/-- `TSEBConfigFileInterface.POINT_VARS`. -/
def POINT_VARS : List String := ["f_c", "f_g", "w_C"]

/-- The operations the extraction functions invoke on their `parser`
argument. The `_parse_*` static methods and `get_data` are ordinary Python
functions of a `parser` object and are duck-typed: any object with these
four methods is a legal argument, `MyConfigParser` being the instance this
module itself constructs (see `MyConfigParser.ops`). `getint`/`getfloat`
take the `fallback` keyword as an optional argument (`none` means the
keyword was not passed). -/
structure ParserOps where
  get : String → Except PyErr String
  getint : String → Option PyVal → Except PyErr PyVal
  getfloat : String → Option PyVal → Except PyErr PyVal
  has_option : String → Except PyErr Bool

/-- The four parser methods of a `MyConfigParser` instance, bundled. -/
def MyConfigParser.ops (p : MyConfigParser) : ParserOps where
  get := p.get
  getint := p.getint
  getfloat := p.getfloat
  has_option := p.has_option

/-- `TSEBConfigFileInterface._parse_common_config(parser)`, line by line:
reads `model` and `output_file` as strings; `resistance_form` as int with
fallback `None`; `calc_row` as int with fallback `[0, 0]`, and when the
stored value `!= [0, 0]` re-reads `row_az` as float and replaces the field
with `[1, row_az]`; `G_form` as int with fallback `1`, branching to
`[[0], G_constant]`, `[[2, G_amp, G_phase, G_shape], 12.0]` or
`[[1], G_ratio]`; and when `model == 'disTSEB'` additionally reads
`flux_LR_method` (string) and `correct_LST` (int, no fallback). -/
def parse_common_config (P : ParserOps) : Except PyErr Conf := do
  let model ← P.get "model"
  let outputFile ← P.get "output_file"
  let conf0 : Conf :=
    [("model", .str model), ("output_file", .str outputFile)]
  let rform ← P.getint "resistance_form" (some PyVal.none)
  let conf1 := dictSet conf0 "resistance_form" rform
  let calcRow ← P.getint "calc_row" (some (.list [.int 0, .int 0]))
  let conf2 := dictSet conf1 "calc_row" calcRow
  let conf3 ←
    if pyNe calcRow (.list [.int 0, .int 0]) then do
      let rowAz ← P.getfloat "row_az" Option.none
      pure (dictSet conf2 "calc_row" (.list [.int 1, rowAz]))
    else pure conf2
  let gForm ← P.getint "G_form" (some (.int 1))
  let conf4 ←
    if pyEq gForm (.int 0) then do
      let gConstant ← P.getfloat "G_constant" Option.none
      pure (dictSet conf3 "G_form" (.list [.list [.int 0], gConstant]))
    else if pyEq gForm (.int 2) then do
      let gParams ← ["G_amp", "G_phase", "G_shape"].mapM
        (fun q => P.getfloat q Option.none)
      pure (dictSet conf3 "G_form"
        (.list [.list (.int 2 :: gParams), .float 12]))
    else do
      let gRatio ← P.getfloat "G_ratio" Option.none
      pure (dictSet conf3 "G_form" (.list [.list [.int 1], gRatio]))
  if model == "disTSEB" then do
    let fluxLRMethod ← P.get "flux_LR_method"
    let correctLST ← P.getint "correct_LST" Option.none
    pure (dictSet (dictSet conf4 "flux_LR_method" (.str fluxLRMethod))
      "correct_LST" correctLST)
  else
    pure conf4

/-- Reads each named field as a string and pairs it with its name. -/
def getAll (P : ParserOps) (names : List String) : Except PyErr Conf :=
  names.mapM (fun q => do
    let v ← P.get q
    pure (q, PyVal.str v))

/-- Reads each named field as a float and pairs it with its name. -/
def getfloatAll (P : ParserOps) (names : List String) : Except PyErr Conf :=
  names.mapM (fun q => do
    let v ← P.getfloat q Option.none
    pure (q, v))

/-- `TSEBConfigFileInterface._parse_image_config(parser)`, line by line:
builds a fresh `conf` dict from `KN_b`/`KN_c`/`KN_C_dash` and the site,
vegetation and spectral field lists read as strings; then forms
`set(IMAGE_VARS)`, subtracts `{T_A0, T_R0}` when `conf['model'] != 'DTD'`
and `{flux_LR, flux_LR_ancillary}` when `conf['model'] != 'disTSEB'`, and
removes `subset` when the parser lacks that option; finally reads the
remaining variables as strings into `conf`. The lookup `conf['model']`
consults the fresh local dict, which never received a `model` key, so it
raises `KeyError` — modelled by the `dictGet` match below. The set is
modelled as a filtered list in `IMAGE_VARS` order; Python set iteration
order is unspecified, and only membership is observable downstream. -/
def parse_image_config (P : ParserOps) : Except PyErr Conf := do
  let kn ← getAll P ["KN_b", "KN_c", "KN_C_dash"]
  let confA := dictUpdate [] kn
  let site ← getAll P SITE_DESCRIPTION
  let confB := dictUpdate confA site
  let veg ← getAll P VEGETATION_PROPERTIES
  let confC := dictUpdate confB veg
  let spec ← getAll P SPECTRAL_PROPERTIES
  let conf := dictUpdate confC spec
  let imgVars0 := IMAGE_VARS
  match dictGet conf "model" with
  | Option.none => throw (.keyError "model")
  | some m1 =>
    let imgVars1 :=
      if pyNe m1 (.str "DTD") then
        imgVars0.filter (fun v => !(v == "T_A0" || v == "T_R0"))
      else imgVars0
    match dictGet conf "model" with
    | Option.none => throw (.keyError "model")
    | some m2 =>
      let imgVars2 :=
        if pyNe m2 (.str "disTSEB") then
          imgVars1.filter (fun v => !(v == "flux_LR" || v == "flux_LR_ancillary"))
        else imgVars1
      let hasSubset ← P.has_option "subset"
      let imgVars3 := if !hasSubset then imgVars2.erase "subset" else imgVars2
      let imgs ← getAll P imgVars3
      pure (dictUpdate conf imgs)

/-- `TSEBConfigFileInterface._parse_point_config(parser)`, line by line:
builds a fresh `conf` dict from `KN_b`/`KN_c`/`KN_C_dash` and the site,
vegetation and spectral field lists read as floats, then reads `input_file`
and the `POINT_VARS` fields as strings. -/
def parse_point_config (P : ParserOps) : Except PyErr Conf := do
  let kn ← getfloatAll P ["KN_b", "KN_c", "KN_C_dash"]
  let confA := dictUpdate [] kn
  let site ← getfloatAll P SITE_DESCRIPTION
  let confB := dictUpdate confA site
  let veg ← getfloatAll P VEGETATION_PROPERTIES
  let confC := dictUpdate confB veg
  let spec ← getfloatAll P SPECTRAL_PROPERTIES
  let confD := dictUpdate confC spec
  let inputFile ← P.get "input_file"
  let confE := dictSet confD "input_file" (.str inputFile)
  let pts ← getAll P POINT_VARS
  pure (dictUpdate confE pts)

/-- The mutable state of a `TSEBConfigFileInterface` object: `__init__` sets
`params = {}` and `ready = False`. -/
structure Interface where
  params : Conf
  ready : Bool

/-- Observable outcome of one `get_data` call: the interface state
afterwards, the messages printed, and the exception propagated to the
caller, if any. -/
structure LoadResult where
  state : Interface
  printed : List String
  raised : Option PyErr

/-- `TSEBConfigFileInterface.get_data(parser, is_image)`:
`_parse_common_config` runs before (outside) the `try` block, so any
exception it raises propagates and nothing afterwards runs; inside the
`try`, the image or point extraction result is merged into `conf` and
`ready` is set to `True`, with `except NoOptionError` and
`except ParserError` clauses printing a message; `self.params = conf` runs
after the `try`/`except` statement, so it runs both on success and after a
caught exception, but not when an uncaught exception propagates. -/
def get_data (self : Interface) (P : ParserOps) (is_image : Bool) :
    LoadResult :=
  match parse_common_config P with
  | .error e => { state := self, printed := [], raised := some e }
  | .ok conf =>
    match (if is_image then parse_image_config P else parse_point_config P) with
    | .ok modeConf =>
      { state := { params := dictUpdate conf modeConf, ready := true },
        printed := [], raised := Option.none }
    | .error (.noOption opt _) =>
      { state := { params := conf, ready := self.ready },
        printed := [s!"Error: missing parameter {opt}"],
        raised := Option.none }
    | .error (.parserError param ty) =>
      { state := { params := conf, ready := self.ready },
        printed := [s!"Error: could not parse parameter {param} as type {ty}"],
        raised := Option.none }
    | .error e => { state := self, printed := [], raised := some e }

/-- What `run` returns: `None` (both the explicit `return None` and falling
off the end of the function), or the `(in_data, out_data)` pair produced by
the named model class's `process_point_series_array`, which is opaque to
this module. -/
inductive RunOutcome where
  | none : RunOutcome
  | pointSeries : String → RunOutcome
deriving DecidableEq, Repr

/-- Externally visible actions `run` can perform: printing, constructing
one of the four model classes, and invoking one of their two entry points.
The model classes are opaque external collaborators; constructing or
invoking them is recorded as an effect. -/
inductive RunEffect where
  | print : String → RunEffect
  | constructModel : String → RunEffect
  | processLocalImage : RunEffect
  | processPointSeriesArray : RunEffect
deriving DecidableEq, Repr

/-- Observable outcome of one `run` call. -/
structure RunResult where
  returned : RunOutcome
  effects : List RunEffect
  raised : Option PyErr

/-- The model class selected by the `if`/`elif` chain of `run` for a given
`self.params['model']` value, `none` when no branch matches. Each branch
compares with Python `==` against a string literal. -/
def selectModelClass (m : PyVal) : Option String :=
  if pyEq m (.str "TSEB_PT") then some "PyTSEB"
  else if pyEq m (.str "TSEB_2T") then some "PyTSEB2T"
  else if pyEq m (.str "DTD") then some "PyDTD"
  else if pyEq m (.str "disTSEB") then some "PydisTSEB"
  else Option.none

/-- `TSEBConfigFileInterface.run(is_image)`: when `self.ready` is falsy the
whole body reduces to printing the blocking message; otherwise
`self.params['model']` is looked up (`KeyError` when absent) and compared
against the four known names, an unknown name printing
`'Unknown model: ' + name + '!'` and returning `None` (the concatenation
raising `TypeError` for a non-string value); a selected model class is
constructed from `self.params` and its image or point entry point invoked,
the point path returning the model's `(in_data, out_data)` pair. -/
def Interface.run (self : Interface) (is_image : Bool) : RunResult :=
  if self.ready then
    match dictGet self.params "model" with
    | Option.none =>
      { returned := .none, effects := [], raised := some (.keyError "model") }
    | some m =>
      match selectModelClass m with
      | some cls =>
        if is_image then
          { returned := .none,
            effects := [.constructModel cls, .processLocalImage],
            raised := Option.none }
        else
          { returned := .pointSeries cls,
            effects := [.constructModel cls, .processPointSeriesArray],
            raised := Option.none }
      | Option.none =>
        match m with
        | .str s =>
          { returned := .none,
            effects := [.print (s!"Unknown model: {s}!")],
            raised := Option.none }
        | _ =>
          { returned := .none, effects := [],
            raised := some (.typeError "can only concatenate str (not other) to str") }
  else
    { returned := .none,
      effects := [.print "pyTSEB will not be run due to errors in the input data."],
      raised := Option.none }

/-- A directly constructed `MyConfigParser("top")` whose (inherited) parser
state holds the given key/value pairs in section `top`, option names
lowercased exactly as `read_file` stores them. This is the parser the
extraction claims are evaluated on; `parse_input_config`, the module's own
constructor call site, never produces one (see `parse_input_config`). -/
def mkParser (kvs : List (String × String)) : MyConfigParser :=
  { sect := "top",
    state := ⟨[("top", kvs.map (fun kv => (kv.1.toLower, kv.2)))]⟩ }

/-- A well-behaved parser object over a key/value list, implementing the
reader contract of the specification: `get` returns the stored string or
raises `NoOptionError`; `getint`/`getfloat` coerce the stored string,
raising `ParserError(name, type)` on a failed coercion and returning the
fallback (or raising `NoOptionError` when none was passed) on a missing
option; `has_option` reports membership. Being duck-typed, `get_data`
accepts any such object. -/
def dictOps (kvs : List (String × String)) : ParserOps where
  get := fun o =>
    match kvs.lookup o with
    | some v => .ok v
    | Option.none => .error (.noOption o "top")
  getint := fun o fb =>
    match kvs.lookup o with
    | some v =>
      match pyParseInt v with
      | some i => .ok (.int i)
      | Option.none => .error (.parserError o "int")
    | Option.none =>
      match fb with
      | some f => .ok f
      | Option.none => .error (.noOption o "top")
  getfloat := fun o fb =>
    match kvs.lookup o with
    | some v =>
      match pyParseFloat v with
      | some q => .ok (.float q)
      | Option.none => .error (.parserError o "float")
    | Option.none =>
      match fb with
      | some f => .ok f
      | Option.none => .error (.noOption o "top")
  has_option := fun o => .ok (kvs.lookup o).isSome

/-- A config providing all required common fields for `model = disTSEB`
(model, output path, `G_ratio` for the defaulted `G_form` branch,
`correct_LST`) but no `flux_LR_method`. -/
def c1kvs : List (String × String) :=
  [("model", "disTSEB"), ("output_file", "out.tif"), ("G_ratio", "0.3"),
   ("correct_LST", "1")]

/-- An image-mode config for `model = TSEB_PT` providing every field
`_parse_image_config` reads before its `conf['model']` lookup, with the
DTD-only and disTSEB-only image variables also present in the file. -/
def c2kvs : List (String × String) :=
  [("model", "TSEB_PT"), ("output_file", "out.tif"),
   ("KN_b", "0.012"), ("KN_c", "0.0038"), ("KN_C_dash", "90"),
   ("landcover", "4"), ("lat", "38.9"), ("lon", "-121.8"), ("alt", "21"),
   ("stdlon", "-120"), ("z_T", "5"), ("z_u", "5"), ("z0_soil", "0.01"),
   ("leaf_width", "0.1"), ("alpha_PT", "1.26"), ("x_LAD", "1"),
   ("emis_C", "0.98"), ("emis_S", "0.95"), ("rho_vis_C", "0.07"),
   ("tau_vis_C", "0.08"), ("rho_nir_C", "0.32"), ("tau_nir_C", "0.33"),
   ("rho_vis_S", "0.15"), ("rho_nir_S", "0.25"),
   ("T_R1", "Tr.tif"), ("T_R0", "Tr0.tif"), ("T_A1", "Ta.tif"),
   ("T_A0", "Ta0.tif"), ("flux_LR", "lr.tif"),
   ("flux_LR_ancillary", "lra.tif"), ("VZA", "0"), ("LAI", "lai.tif"),
   ("f_c", "0.9"), ("f_g", "1"), ("h_C", "2.4"), ("w_C", "1"),
   ("input_mask", "0"), ("time", "10.9"), ("DOY", "221"), ("u", "u.tif"),
   ("ea", "ea.tif"), ("S_dn", "sdn.tif"), ("L_dn", "ldn.tif"),
   ("p", "p.tif")]

/-- A common config with `G_form = 0` and `G_constant = 5.0`. -/
def c4kvs : List (String × String) :=
  [("model", "TSEB_PT"), ("output_file", "out.tif"), ("G_form", "0"),
   ("G_constant", "5.0")]

/-- An image-mode config lacking only `KN_b`, used with the well-behaved
`dictOps` reader. -/
def c5kvs : List (String × String) :=
  [("model", "TSEB_PT"), ("output_file", "out.tif"), ("G_ratio", "0.3")]

/-- The mapping `_parse_common_config` produces for `c5kvs` under the
well-behaved reader: the two strings, the `None` fallback for
`resistance_form`, the `[0, 0]` fallback for `calc_row` and the defaulted
ratio-based `G_form`. -/
def c5CommonConf : Conf :=
  [("model", .str "TSEB_PT"), ("output_file", .str "out.tif"),
   ("resistance_form", PyVal.none),
   ("calc_row", .list [.int 0, .int 0]),
   ("G_form", .list [.list [.int 1], .float (3 / 10)])]

/-- A point-mode config whose `lat` is not numeric and whose every other
field is present and numeric. -/
def c6kvs : List (String × String) :=
  [("model", "TSEB_PT"), ("output_file", "out.txt"),
   ("KN_b", "0.012"), ("KN_c", "0.0038"), ("KN_C_dash", "90"),
   ("landcover", "4"), ("lat", "abc"), ("lon", "-121.8"), ("alt", "21"),
   ("stdlon", "-120"), ("z_T", "5"), ("z_u", "5"), ("z0_soil", "0.01"),
   ("leaf_width", "0.1"), ("alpha_PT", "1.26"), ("x_LAD", "1"),
   ("emis_C", "0.98"), ("emis_S", "0.95"), ("rho_vis_C", "0.07"),
   ("tau_vis_C", "0.08"), ("rho_nir_C", "0.32"), ("tau_nir_C", "0.33"),
   ("rho_vis_S", "0.15"), ("rho_nir_S", "0.25"),
   ("input_file", "in.csv"), ("f_c", "0.9"), ("f_g", "1"), ("w_C", "1")]

/-- A common config with `calc_row` omitted. -/
def c7kvs : List (String × String) :=
  [("model", "TSEB_PT"), ("output_file", "out.tif"), ("G_ratio", "0.3")]

/-- A common config with `calc_row = 0` and `row_az = 45.0` present. -/
def c10kvs : List (String × String) :=
  [("model", "TSEB_PT"), ("output_file", "out.tif"), ("calc_row", "0"),
   ("row_az", "45.0"), ("G_ratio", "0.3")]

/-- C1: the claim says `get_data` catches every extraction error, reports the
offending field, and lets no exception propagate — in particular that a
`disTSEB` config missing `flux_LR_method` yields readiness false and a
message naming that field. On the code, for exactly that config,
`_parse_common_config` runs outside `get_data`'s `try` block and its very
first `getint` call (`resistance_form`) raises `AttributeError` on the
nonexistent `top_section` attribute: the exception propagates to the
caller, nothing is printed, and no field is reported. -/
theorem c1_get_data_disTSEB_missing_flux_LR_method_raises :
    get_data ⟨[], false⟩ (mkParser c1kvs).ops true =
      { state := ⟨[], false⟩, printed := [],
        raised := some (.attributeError "top_section") } := by
  with_unfolding_all rfl

/-- C2: the claim says image-mode extraction filters the image-variable set
by the resolved model and returns the remaining fields. On the code,
`_parse_image_config` consults `conf['model']` on its own freshly built
dict, which never receives a `model` key, so for a `TSEB_PT` config with
every read field present (the DTD-only and disTSEB-only variables
included) it raises `KeyError('model')` instead of returning a mapping. -/
theorem c2_parse_image_config_raises_keyError_model :
    parse_image_config (mkParser c2kvs).ops =
      .error (.keyError "model") := by
  with_unfolding_all rfl

/-- C3: the claim says `parse_input_config` returns a parsed representation
for every openable path. On the code, it evaluates `MyConfigParser()` with
no arguments although `__init__` requires the positional `top_section`, so
it raises `TypeError` before the file is even opened, for every path. -/
theorem c3_parse_input_config_raises_typeError :
    parse_input_config ["model = TSEB_PT", "output_file = out.tif"] =
      .error (.typeError
        "__init__ missing 1 required positional argument: top_section") :=
  rfl

/-- C4: the claim says common extraction maps `G_form = 0` with
`G_constant = 5.0` to `[[0], 5.0]` (and the other `G_form` branches
likewise). On the code, `_parse_common_config` raises `AttributeError` on
the nonexistent `top_section` attribute at its first `getint` call
(`resistance_form`), before the `G_form` logic is reached, so this config
produces no `G_form` field at all. -/
theorem c4_parse_common_config_G_form0_raises_attributeError :
    parse_common_config (mkParser c4kvs).ops =
      .error (.attributeError "top_section") := by
  with_unfolding_all rfl

/-- C5 counterexample: under a well-behaved reader object (`dictOps`, a
legal duck-typed argument of `get_data`) whose config lacks `KN_b`,
`get_data` in image mode catches the missing-parameter error, prints the
message, leaves readiness false — and stores the partially-populated
common mapping in `params` instead of discarding it. -/
theorem c5_partial_mapping_retained_counterexample :
    get_data ⟨[], false⟩ (dictOps c5kvs) true =
      { state := { params := c5CommonConf, ready := false },
        printed := ["Error: missing parameter KN_b"],
        raised := Option.none } ∧
    c5CommonConf ≠ [] := by
  constructor
  · with_unfolding_all rfl
  · exact List.cons_ne_nil _ _

/-- C5 amended: whenever `_parse_common_config` succeeds with mapping `c`
and image extraction fails with a missing-parameter error, `get_data`
leaves readiness unchanged and retains `c` — the partially-populated
common mapping — as `params`, rather than discarding it, because
`self.params = conf` runs after the `except` clauses as well. -/
theorem c5_get_data_retains_common_mapping (self : Interface)
    (P : ParserOps) (c : Conf) (opt sec : String)
    (hc : parse_common_config P = .ok c)
    (hi : parse_image_config P = .error (.noOption opt sec)) :
    get_data self P true =
      { state := { params := c, ready := self.ready },
        printed := [s!"Error: missing parameter {opt}"],
        raised := Option.none } := by
  simp [get_data, hc, hi]

/-- C5 witness: the amended statement at the concrete reader and config of
the counterexample input. -/
theorem c5_get_data_retains_common_mapping_witness :
    get_data ⟨[], false⟩ (dictOps c5kvs) true =
      { state := { params := c5CommonConf, ready := false },
        printed := ["Error: missing parameter KN_b"],
        raised := Option.none } :=
  c5_get_data_retains_common_mapping ⟨[], false⟩ (dictOps c5kvs)
    c5CommonConf "KN_b" "top" (by with_unfolding_all rfl)
    (by with_unfolding_all rfl)

/-- C6: the claim says point-mode extraction coerces every Site Description
field to float and that a non-numeric `lat` raises
`ParserError('lat', 'float')`. On the code, for a config whose `lat` is
`'abc'` and whose every other field is numeric, `_parse_point_config`
raises `AttributeError` on the nonexistent `top_section` attribute at its
very first `getfloat` call (`KN_b`): no float is ever produced and
`ParserError('lat', 'float')` is never raised (`MyConfigParser.getfloat`
cannot reach its `ValueError` handler). -/
theorem c6_parse_point_config_nonnumeric_lat_raises_attributeError :
    parse_point_config (mkParser c6kvs).ops =
      .error (.attributeError "top_section") := by
  with_unfolding_all rfl

/-- C7: the claim says an omitted `calc_row` yields the `[0, 0]` sentinel
and `calc_row = 1` with `row_az = 45.0` yields `[1, 45.0]`. On the code,
`_parse_common_config` raises `AttributeError` on the nonexistent
`top_section` attribute at its first `getint` call (`resistance_form`), so
a config with `calc_row` omitted produces no `calc_row` field at all. -/
theorem c7_parse_common_config_calc_row_omitted_raises_attributeError :
    parse_common_config (mkParser c7kvs).ops =
      .error (.attributeError "top_section") := by
  with_unfolding_all rfl

/-- C8: with readiness false, `run` (for either mode flag) returns `None`,
performs no model construction or model call, and only prints the blocking
message. -/
theorem c8_run_not_ready_no_result_no_model (self : Interface)
    (is_image : Bool) (h : self.ready = false) :
    self.run is_image =
      { returned := .none,
        effects :=
          [.print "pyTSEB will not be run due to errors in the input data."],
        raised := Option.none } ∧
    ∀ cls, RunEffect.constructModel cls ∉ (self.run is_image).effects := by
  simp [Interface.run, h]

/-- C8 witness: the not-ready behaviour at a concrete fresh interface state
in image mode. -/
theorem c8_run_not_ready_witness :
    Interface.run ⟨[], false⟩ true =
      { returned := .none,
        effects :=
          [.print "pyTSEB will not be run due to errors in the input data."],
        raised := Option.none } ∧
    ∀ cls,
      RunEffect.constructModel cls ∉ (Interface.run ⟨[], false⟩ true).effects :=
  c8_run_not_ready_no_result_no_model ⟨[], false⟩ true rfl

/-- C9: for every `MyConfigParser` instance, option name and fallback
argument, `getint` and `getfloat` raise `AttributeError` on the
nonexistent `top_section` attribute (the constructor stores the section
under the attribute `section`): they never return a value and never raise
the documented `ParserError` coercion error, whether or not the option is
present or parseable. -/
theorem c9_getint_getfloat_always_attributeError (p : MyConfigParser)
    (option : String) (fallback : Option PyVal) :
    p.getint option fallback = .error (.attributeError "top_section") ∧
    p.getfloat option fallback = .error (.attributeError "top_section") :=
  ⟨rfl, rfl⟩

/-- C10: the claim says any `calc_row` explicitly present — including
`calc_row = 0` — triggers the row-correction branch, so that `calc_row = 0`
with `row_az = 45.0` yields `[1, 45.0]`. On the code, the `getint` read of
`calc_row` can never return an integer to compare against the `[0, 0]`
sentinel: `_parse_common_config` raises `AttributeError` on the
nonexistent `top_section` attribute already at its first `getint` call
(`resistance_form`), so this config yields no `calc_row` field at all. -/
theorem c10_parse_common_config_calc_row_zero_raises_attributeError :
    parse_common_config (mkParser c10kvs).ops =
      .error (.attributeError "top_section") := by
  with_unfolding_all rfl

end TSEBConf
